import Mathlib

/-!
Verification of the admin-dashboard API, wallet-login bridge and
challenge-card component of this repository, shallowly embedded in Lean.

Sources embedded:
- src/server/routes/api-admin-dashboard.ts (admin router and wallet-login router)
- src/client/src/components/ChallengeCard.tsx

JavaScript runtime behaviour that the code relies on is modelled
explicitly: string `replace` with a string pattern replaces only the first
occurrence; `parseFloat`/`parseInt` parse a numeric prefix and yield NaN
otherwise (NaN is modelled as `none`); `x || d` falls back on falsy values
(0, NaN, empty string, undefined); `Array.slice` clamps its bounds;
BigInt division truncates.  Numbers are modelled as rationals, which is
exact for every value these claims involve; NaN is `Option.none`.
Thrown exceptions of an external dependency are modelled with `Except`.
-/

/-- First-occurrence deletion of `pat` from a character list: the semantics
of JavaScript `String.prototype.replace(pat, '')` with a string pattern,
which replaces only the first occurrence. -/
def jsStripFirst (pat : List Char) : List Char → List Char
  | [] => []
  | c :: rest =>
    if pat.isPrefixOf (c :: rest) then (c :: rest).drop pat.length
    else c :: jsStripFirst pat rest

/-- Whether `pat` occurs as a contiguous sublist: JavaScript `includes`. -/
def jsContainsSub (pat : List Char) : List Char → Bool
  | [] => pat.isEmpty
  | c :: rest => pat.isPrefixOf (c :: rest) || jsContainsSub pat rest

/-- Core of JavaScript `String.prototype.split` with a one-character
separator, over character lists. -/
def splitOnChar (sep : Char) (l : List Char) : List (List Char) :=
  l.foldr
    (fun c acc =>
      match acc with
      | [] => [[c]]
      | cur :: rest => if c = sep then [] :: cur :: rest else (c :: cur) :: rest)
    [[]]

/-- JavaScript `s.split(sep)` for a one-character separator. -/
def jsSplit (s : String) (sep : Char) : List String :=
  (splitOnChar sep s.toList).map String.mk

/-- JavaScript `s.startsWith(pre)`. -/
def jsStartsWith (s pre : String) : Bool :=
  pre.toList.isPrefixOf s.toList

/-- JavaScript `s.replace(pat, '')` for a string pattern: removes the first
occurrence of `pat`, if any. -/
def jsReplaceFirst (s pat : String) : String :=
  String.mk (jsStripFirst pat.toList s.toList)

/-- Numeric value of a list of decimal digit characters. -/
def digitsToNat (ds : List Char) : Nat :=
  ds.foldl (fun a c => 10 * a + (c.toNat - 48)) 0

/-- JavaScript `parseFloat` on the decimal literals this program handles:
an optional sign, integer digits, an optional fraction (no exponent);
`none` models NaN (no parsable numeric prefix). -/
def parseFloat (s : String) : Option ℚ :=
  let l := s.toList
  let sign : ℚ := match l with | '-' :: _ => -1 | _ => 1
  let body : List Char := match l with
    | '-' :: t => t
    | '+' :: t => t
    | _ => l
  let intPart := body.takeWhile Char.isDigit
  let rest := body.dropWhile Char.isDigit
  let fracPart : List Char := match rest with
    | '.' :: t => t.takeWhile Char.isDigit
    | _ => []
  if intPart.isEmpty && fracPart.isEmpty then none
  else some (sign * ((digitsToNat intPart : ℚ) + (digitsToNat fracPart : ℚ) / (10 ^ fracPart.length : ℚ)))

/-- JavaScript `parseInt` (radix 10 inputs): optional sign then the longest
decimal-digit prefix; `none` models NaN. -/
def jsParseInt (s : String) : Option ℤ :=
  let l := s.toList
  let sign : ℤ := match l with | '-' :: _ => -1 | _ => 1
  let body : List Char := match l with
    | '-' :: t => t
    | '+' :: t => t
    | _ => l
  let ds := body.takeWhile Char.isDigit
  if ds.isEmpty then none else some (sign * (digitsToNat ds : ℤ))

/-- JavaScript `Array.prototype.slice(start, stop)`: negative indices count
from the end, both bounds are clamped to the array. -/
def jsSlice {α : Type} (l : List α) (start stop : ℤ) : List α :=
  let len : ℤ := l.length
  let s := if start < 0 then max (len + start) 0 else min start len
  let e := if stop < 0 then max (len + stop) 0 else min stop len
  (l.drop s.toNat).take (e - s).toNat

/-- JavaScript `s || d` for an optional string: the empty string and
`undefined` are falsy. -/
def jsOrStr (o : Option String) (d : String) : String :=
  match o with
  | some s => if s = "" then d else s
  | none => d

/-- JavaScript `s || null` for an optional string. -/
def jsOrNullStr (o : Option String) : Option String :=
  match o with
  | some s => if s = "" then none else some s
  | none => none

/-- JavaScript `n || d` for an optional integer: 0 and `undefined` are falsy. -/
def jsOrInt (o : Option ℤ) (d : ℤ) : ℤ :=
  match o with
  | some v => if v = 0 then d else v
  | none => d

/-- JavaScript `n || d` for an optional rational number. -/
def jsOrQ (o : Option ℚ) (d : ℚ) : ℚ :=
  match o with
  | some v => if v = 0 then d else v
  | none => d

/-- Truthiness of an optional string (empty string is falsy). -/
def truthyS (o : Option String) : Bool :=
  match o with
  | some s => s ≠ ""
  | none => false

/-- Truthiness of an optional boolean. -/
def truthyB (o : Option Bool) : Bool := o.getD false

/-- JavaScript `+` on numbers with NaN propagation (`none` is NaN). -/
def jsAdd (a b : Option ℚ) : Option ℚ :=
  match a, b with
  | some x, some y => some (x + y)
  | _, _ => none

/-! ## Server data model (api-admin-dashboard.ts) -/

/-- A user record of the external user store, with the fields the admin
router reads.  Nullable columns are `Option`. -/
structure User where
  id : String
  username : Option String
  firstName : Option String
  lastName : Option String
  email : Option String
  level : Option ℤ
  points : Option ℤ
  balance : Option String
  createdAt : Option String
  lastLogin : Option String
  status : Option String
  isActive : Option Bool
  isAdmin : Option Bool
deriving DecidableEq, Repr

/-- Outcome of the `adminAuth` middleware: an HTTP error response, or
control passed to the handler with the resolved user attached to the
request context. -/
inductive AuthOutcome where
  | respond (status : Nat) (error : String)
  | next (user : User)
deriving DecidableEq, Repr

/-- The string the middleware strips from the Authorization header. -/
def bearerPrefix : String := "Bearer "

/-- Body of the `adminAuth` middleware after token extraction
(api-admin-dashboard.ts lines 15-39).  `getUser` is the external store's
lookup; `Except.error` models a thrown exception, which the catch block
(lines 36-39) converts to a 401 response. -/
def adminAuthToken (token : String) (getUser : String → Except String (Option User)) :
    AuthOutcome :=
  if token = "" ∨ jsStartsWith token "admin_" = false then
    .respond 401 "Unauthorized"
  else
    let parts := jsSplit token '_' 
    if parts.length < 3 then
      .respond 401 "Invalid token format"
    else
      let userId := String.intercalate "_" ((parts.drop 1).dropLast)
      match getUser userId with
      | .error _ => .respond 401 "Unauthorized"
      | .ok none => .respond 403 "Admin access required"
      | .ok (some user) =>
        if truthyB user.isAdmin then .next user
        else .respond 403 "Admin access required"

/-- The `adminAuth` middleware (api-admin-dashboard.ts lines 11-40):
`req.headers.authorization?.replace('Bearer ', '')` followed by the token
checks.  A missing header leaves `token` undefined, hence 401. -/
def adminAuth (authorization : Option String)
    (getUser : String → Except String (Option User)) : AuthOutcome :=
  match authorization with
  | none => .respond 401 "Unauthorized"
  | some header => adminAuthToken (jsReplaceFirst header bearerPrefix) getUser

/-- A store that never throws, for claims about normal operation. -/
def pureStore (f : String → Option User) : String → Except String (Option User) :=
  fun uid => .ok (f uid)

/-! ## Sample data used by witnesses and counterexamples -/

/-- A user flagged admin, stored under id `u_1` (id contains an underscore). -/
def adminSample : User :=
  { id := "u_1", username := some "alice", firstName := some "Alice",
    lastName := none, email := some "a@x.io", level := some 3, points := some 10,
    balance := some "25", createdAt := some "2024-01-01", lastLogin := none,
    status := some "active", isActive := some true, isAdmin := some true }

/-- A user not flagged admin. -/
def plainSample : User :=
  { id := "bob", username := some "bob", firstName := none, lastName := none,
    email := none, level := none, points := none, balance := none,
    createdAt := some "2024-02-02", lastLogin := none, status := none,
    isActive := some false, isAdmin := some false }

/-- Sample user store: an admin under `u_1`, a non-admin under `bob`. -/
def sampleStoreFn : String → Option User :=
  fun uid => if uid = "u_1" then some adminSample
             else if uid = "bob" then some plainSample
             else none

/-! ## Challenge rows and the stats financial loop -/

/-- A challenge row of the relational store, with the fields the admin
router reads (`db.select().from(challenges)`). -/
structure ChallengeRow where
  id : ℤ
  title : Option String
  description : Option String
  category : Option String
  status : Option String
  amount : Option String
  result : Option String
  evidence : Option String
  dueDate : Option String
  createdAt : Option String
  completedAt : Option String
  isPinned : Option Bool
  challengerId : Option String
  challengedId : Option String
  challengerUsername : Option String
  challengedUsername : Option String
  adminCreated : Option Bool
  bonusSide : Option String
  bonusMultiplier : Option String
  bonusEndsAt : Option String
  yesStakeTotal : Option ℚ
  noStakeTotal : Option ℚ
  paymentTokenAddress : Option String
deriving DecidableEq, Repr

/-- The financial-stats loop of GET /stats (api-admin-dashboard.ts lines
69-78): starting from `(totalVolume, totalChallengeStaked) = (0, 0)`, each
challenge with a truthy `amount` adds `parseFloat(amount)` to both
accumulators (NaN, i.e. `none`, propagates through the addition). -/
def statsFinancialTotals (allChallenges : List ChallengeRow) : Option ℚ × Option ℚ :=
  allChallenges.foldl
    (fun acc c =>
      match c.amount with
      | none => acc
      | some s =>
        if s = "" then acc
        else (jsAdd acc.1 (parseFloat s), jsAdd acc.2 (parseFloat s)))
    (some 0, some 0)

/-- The total that claim C2 prescribes: the sum of the parsed `amount`
over all challenges, an absent or unparsable amount contributing 0.
Written from the claim's words, to be compared with `statsFinancialTotals`. -/
def claimedStatsTotal (allChallenges : List ChallengeRow) : ℚ :=
  (allChallenges.map (fun c =>
    match c.amount with
    | some s => (parseFloat s).getD 0
    | none => 0)).sum

/-! ## Paginated list endpoints -/

/-- The admin view of one user, as built by GET /users (api-admin-dashboard.ts
lines 123-137). -/
structure AdminUserView where
  id : String
  username : Option String
  firstName : String
  lastName : String
  email : Option String
  level : ℤ
  points : ℤ
  balance : String
  streak : ℤ
  createdAt : Option String
  lastLogin : Option String
  status : String
  isAdmin : Bool
deriving DecidableEq, Repr

/-- `user.balance?.toString() || '0'`. -/
def balanceString (b : Option String) : String := jsOrStr b "0"

/-- `user.lastLogin || user.createdAt`. -/
def lastLoginOrCreated (lastLogin createdAt : Option String) : Option String :=
  match lastLogin with
  | some l => if l = "" then createdAt else some l
  | none => createdAt

/-- The per-user mapping of GET /users. -/
def toAdminUserView (u : User) : AdminUserView :=
  { id := u.id
    username := u.username
    firstName := jsOrStr u.firstName ""
    lastName := jsOrStr u.lastName ""
    email := u.email
    level := jsOrInt u.level 0
    points := jsOrInt u.points 0
    balance := balanceString u.balance
    streak := 0
    createdAt := u.createdAt
    lastLogin := lastLoginOrCreated u.lastLogin u.createdAt
    status := if truthyB u.isActive then "active" else "inactive"
    isAdmin := truthyB u.isAdmin }

/-- `parseInt(req.query.limit as string) || 100`: an absent query
parameter makes `parseInt` see `undefined` (NaN). -/
def effectiveLimit (limitQ : Option String) : ℤ :=
  jsOrInt (limitQ.bind jsParseInt) 100

/-- `parseInt(req.query.offset as string) || 0`. -/
def effectiveOffset (offsetQ : Option String) : ℤ :=
  jsOrInt (offsetQ.bind jsParseInt) 0

/-- GET /users (api-admin-dashboard.ts lines 115-139): parse pagination,
slice the full user list, map to the admin view. -/
def getUsersHandler (limitQ offsetQ : Option String) (allUsers : List User) :
    List AdminUserView :=
  let limit := effectiveLimit limitQ
  let offset := effectiveOffset offsetQ
  (jsSlice allUsers offset (offset + limit)).map toAdminUserView

/-- The embedded user reference inside the admin challenge view. -/
structure AdminChallengeUserRef where
  id : String
  username : String
  firstName : String
  lastName : String
  profileImageUrl : String
deriving DecidableEq, Repr

/-- The admin view of one challenge, as built by GET /challenges
(api-admin-dashboard.ts lines 189-226). -/
structure AdminChallengeView where
  id : ℤ
  title : String
  description : String
  category : String
  status : String
  amount : String
  result : Option String
  evidence : Option String
  dueDate : String
  createdAt : String
  completedAt : Option String
  isPinned : Bool
  challenger : String
  challenged : String
  challengerUser : AdminChallengeUserRef
  challengedUser : AdminChallengeUserRef
  adminCreated : Bool
  bonusSide : Option String
  bonusMultiplier : Option String
  bonusEndsAt : Option String
  yesStakeTotal : ℚ
  noStakeTotal : ℚ
  paymentTokenAddress : Option String
  type : String
deriving DecidableEq, Repr

/-- The per-challenge mapping of GET /challenges.  `nowIso` stands for
`new Date().toISOString()` evaluated during the request. -/
def toAdminChallengeView (nowIso : String) (c : ChallengeRow) : AdminChallengeView :=
  { id := c.id
    title := jsOrStr c.title ("Challenge #" ++ toString c.id)
    description := jsOrStr c.description ""
    category := jsOrStr c.category "General"
    status := jsOrStr c.status "pending"
    amount := jsOrStr c.amount "0"
    result := jsOrNullStr c.result
    evidence := jsOrNullStr c.evidence
    dueDate := jsOrStr c.dueDate nowIso
    createdAt := jsOrStr c.createdAt nowIso
    completedAt := jsOrNullStr c.completedAt
    isPinned := truthyB c.isPinned
    challenger := jsOrStr c.challengerId ""
    challenged := jsOrStr c.challengedId ""
    challengerUser :=
      { id := jsOrStr c.challengerId ""
        username := jsOrStr c.challengerUsername "Unknown"
        firstName := "", lastName := "", profileImageUrl := "" }
    challengedUser :=
      { id := jsOrStr c.challengedId ""
        username := jsOrStr c.challengedUsername "Unknown"
        firstName := "", lastName := "", profileImageUrl := "" }
    adminCreated := truthyB c.adminCreated
    bonusSide := jsOrNullStr c.bonusSide
    bonusMultiplier := jsOrNullStr c.bonusMultiplier
    bonusEndsAt := jsOrNullStr c.bonusEndsAt
    yesStakeTotal := jsOrQ c.yesStakeTotal 0
    noStakeTotal := jsOrQ c.noStakeTotal 0
    paymentTokenAddress := c.paymentTokenAddress
    type := if truthyS c.challengedId then "p2p" else "admin" }

/-- GET /challenges (api-admin-dashboard.ts lines 182-233): same pagination
as GET /users over the full challenge collection. -/
def getChallengesHandler (nowIso : String) (limitQ offsetQ : Option String)
    (allChallenges : List ChallengeRow) : List AdminChallengeView :=
  let limit := effectiveLimit limitQ
  let offset := effectiveOffset offsetQ
  (jsSlice allChallenges offset (offset + limit)).map (toAdminChallengeView nowIso)

/-! ## Wallet login (POST /api/auth/wallet-login) -/

/-- The provisioned identity record returned by `getOrCreateSupabaseUser`. -/
structure SupaUser where
  id : String
  email : Option String
  wallet : Option String
deriving DecidableEq, Repr

/-- The handler's HTTP response. -/
inductive WLResponse where
  | err (status : Nat) (error : String)
  | ok (token : String) (userId : String) (email : Option String) (wallet : Option String)
deriving DecidableEq, Repr

/-- Response of the wallet-login handler together with which of the two
external dependencies were invoked. -/
structure WLTrace where
  response : WLResponse
  provisionCalled : Bool
  tokenCalled : Bool
deriving DecidableEq, Repr

/-- POST /wallet-login (api-admin-dashboard.ts lines 287-326).
`getOrCreateSupabaseUser` and `generateSupabaseToken` are external
dependencies; `Except.error` models a thrown exception, which the catch
block (lines 322-325) converts to a 500 carrying the error's message.
An empty wallet address is falsy, hence also rejected with 400. -/
def walletLoginHandler (walletAddress : Option String) (email : Option String)
    (getOrCreateSupabaseUser : String → Option String → Except String (Option SupaUser))
    (generateSupabaseToken : String → String → Except String (Option String)) : WLTrace :=
  match walletAddress with
  | none => ⟨.err 400 "Missing walletAddress", false, false⟩
  | some w =>
    if w = "" then ⟨.err 400 "Missing walletAddress", false, false⟩
    else
      match getOrCreateSupabaseUser w email with
      | .error msg => ⟨.err 500 msg, true, false⟩
      | .ok none => ⟨.err 500 "Failed to create user", true, false⟩
      | .ok (some user) =>
        match generateSupabaseToken user.id w with
        | .error msg => ⟨.err 500 msg, true, true⟩
        | .ok none => ⟨.err 500 "Failed to generate token", true, true⟩
        | .ok (some token) =>
          if token = "" then ⟨.err 500 "Failed to generate token", true, true⟩
          else ⟨.ok token user.id user.email user.wallet, true, true⟩

/-! ## Client data model (ChallengeCard.tsx) -/

/-- The `challenge` prop of ChallengeCard, restricted to the fields the
embedded derivations read.  Timestamps (`bonusEndsAt`, `createdAt`,
`dueDate`) are modelled as epoch milliseconds, the value
`new Date(x).getTime()` yields for them; `stakeAmountWei` is the integer
value `BigInt` parses from the raw on-chain stake string, `none` covering
an absent or empty field. -/
structure ClientChallenge where
  id : ℤ
  challenger : Option String
  challenged : Option String
  challengerSide : Option String
  title : String
  category : Option String
  amount : String
  status : String
  dueDate : Option ℤ
  createdAt : Option ℤ
  adminCreated : Option Bool
  bonusSide : Option String
  bonusMultiplier : Option String
  bonusEndsAt : Option ℤ
  bonusAmount : Option ℚ
  yesStakeTotal : Option ℚ
  noStakeTotal : Option ℚ
  paymentTokenAddress : Option String
  earlyBirdSlots : Option ℤ
  streakBonusEnabled : Option Bool
  acceptorStaked : Option Bool
  creatorStaked : Option Bool
  stakeAmountWei : Option ℤ
deriving DecidableEq, Repr

/-- `challenge.bonusEndsAt && new Date(challenge.bonusEndsAt) > new Date()`
(ChallengeCard.tsx lines 136-137); `now` is the render time. -/
def isBonusActive (ch : ClientChallenge) (now : ℤ) : Bool :=
  match ch.bonusEndsAt with
  | some t => now < t
  | none => false

/-- One entry of the derived bonus list.  `icon` records the lucide icon
component the source attaches ("Zap" or "Trophy"). -/
structure BonusEntry where
  type : String
  label : String
  icon : String
  side : Option String
  description : String
deriving DecidableEq, Repr

/-- `getBonusBadge` (ChallengeCard.tsx lines 139-175).  The external
currency helpers `getCurrencySymbol` and `formatTokenAmount` are
parameters `sym` and `fmt`; the weak-side label is
`getCurrencySymbol(paymentTokenAddress) ++ formatTokenAmount(bonusAmount)`
when `bonusAmount` is truthy, else `bonusMultiplier ++ "x"` (an undefined
multiplier stringifies to "undefined", as in a template literal). -/
def getBonusBadge (sym : Option String → String) (fmt : ℚ → String)
    (ch : ClientChallenge) (now : ℤ) : List BonusEntry :=
  let bonuses : List BonusEntry := []
  let bonuses :=
    if isBonusActive ch now && truthyS ch.bonusSide then
      bonuses ++ [{ type := "weak_side"
                    label :=
                      match ch.bonusAmount with
                      | some a => if a ≠ 0 then sym ch.paymentTokenAddress ++ fmt a
                                  else (ch.bonusMultiplier.getD "undefined") ++ "x"
                      | none => (ch.bonusMultiplier.getD "undefined") ++ "x"
                    icon := "Zap"
                    side := ch.bonusSide
                    description :=
                      "Bonus for " ++ (ch.bonusSide.getD "undefined") ++ " side" }]
    else bonuses
  let bonuses :=
    if (match ch.earlyBirdSlots with
        | some k => decide (k ≠ 0) && decide (0 < k)
        | none => false) then
      bonuses ++ [{ type := "early_bird"
                    label := "Early"
                    icon := "Zap"
                    side := none
                    description :=
                      "Bonus for first " ++ toString (ch.earlyBirdSlots.getD 0) ++ " users" }]
    else bonuses
  let bonuses :=
    if truthyB ch.streakBonusEnabled then
      bonuses ++ [{ type := "streak"
                    label := "Streak"
                    icon := "Trophy"
                    side := none
                    description := "Win streak bonus active" }]
    else bonuses
  bonuses

/-- `isEnded` (ChallengeCard.tsx line 289). -/
def isEnded (ch : ClientChallenge) (now : ℤ) : Bool :=
  ch.status = "completed" ||
  (match ch.dueDate with
   | some d => d ≤ now
   | none => false)

/-- `isNewChallenge` (ChallengeCard.tsx line 291). -/
def isNewChallenge (ch : ClientChallenge) (now : ℤ) : Bool :=
  ch.createdAt.isSome &&
  (match ch.createdAt with
   | some t => now - t < 24 * 60 * 60 * 1000
   | none => false) &&
  !(isEnded ch now)

/-- `getStatusBadge` (ChallengeCard.tsx lines 293-385), returning the
rendered badge's label.  `status` is the argument the call site passes
(`challenge.status`); the peer-to-peer escrow branches read
`challenge.status` directly, the rest reads the argument, as the source
does. -/
def getStatusBadge (ch : ClientChallenge) (now : ℤ) (status : String) : Option String :=
  if ¬ truthyB ch.adminCreated ∧ ch.status = "open" ∧ ¬ truthyB ch.acceptorStaked then
    some "Open"
  else if ¬ truthyB ch.adminCreated ∧ ch.status = "pending" ∧
      truthyB ch.acceptorStaked ∧ ¬ truthyB ch.creatorStaked then
    some "Waiting for Creator"
  else if ¬ truthyB ch.adminCreated ∧ ch.status = "active" then
    some "Active"
  else if truthyB ch.adminCreated then
    if status = "pending_admin" ∨ status = "active" then some "Awaiting Result"
    else if status = "completed" then some "Ended"
    else if isNewChallenge ch now then some "New"
    else none
  else
    match status with
    | "pending" => some "Pending"
    | "active" => some "Live"
    | "completed" => some "Ended"
    | "disputed" => some "Disputed"
    | "cancelled" => some "Cancelled"
    | "pending_admin" => some "Payout"
    | _ => none

/-- The status badge the card actually renders: the guard at
ChallengeCard.tsx line 527 renders `getStatusBadge(challenge.status)` only
when `challenge.status !== "open" && challenge.status !== "pending"`. -/
def renderedStatusBadge (ch : ClientChallenge) (now : ℤ) : Option String :=
  if ch.status ≠ "open" ∧ ch.status ≠ "pending" then getStatusBadge ch now ch.status
  else none

/-- The native-currency sentinel address. -/
def zeroAddress : String := "0x0000000000000000000000000000000000000000"

/-- The `displayVolume` IIFE of the card footer (ChallengeCard.tsx lines
776-792).  Admin-created: `(yesStakeTotal || 0) + (noStakeTotal || 0)`.
Peer-to-peer with a truthy `stakeAmountWei`: BigInt arithmetic,
`(wei / 10^decimals) * 2` with truncating division, decimals 18 for the
zero sentinel address and 6 otherwise.  Peer-to-peer without it:
`(parseFloat(String(amount)) || 0) * 2`. -/
def displayVolume (ch : ClientChallenge) : ℚ :=
  if truthyB ch.adminCreated then
    jsOrQ ch.yesStakeTotal 0 + jsOrQ ch.noStakeTotal 0
  else
    match ch.stakeAmountWei with
    | some wei =>
      let decimals : ℕ := if ch.paymentTokenAddress = some zeroAddress then 18 else 6
      ((Int.tdiv wei (10 ^ decimals)) * 2 : ℤ)
    | none => (jsOrQ (parseFloat ch.amount) 0) * 2

/-! ## Accept-open two-phase flow -/

deriving instance DecidableEq for Except

/-- A transient notification. -/
structure Toast where
  title : String
  description : String
  destructive : Bool
deriving DecidableEq, Repr

/-- `acceptOpenChallengeMutation.mutationFn` (ChallengeCard.tsx lines
253-271): sign on chain first; a chain failure rethrows as
"Blockchain signing failed: ..." before the server call; otherwise POST
accept-open with the transaction hash.  Returns the result and whether the
server call was made.  `blockchainAccept` models
`blockchainAcceptP2PChallenge(challenge.id)` yielding a transaction hash,
`api` models `apiRequest` on `/accept-open`. -/
def acceptOpenMutationFn (blockchainAccept : Except String String)
    (api : String → Except String String) : Except String String × Bool :=
  match blockchainAccept with
  | .error msg =>
    (.error ("Blockchain signing failed: " ++ (if msg = "" then "Unknown error" else msg)),
     false)
  | .ok transactionHash => (api transactionHash, true)

/-- The observable result of running the accept-open mutation once. -/
structure AcceptOpenRun where
  result : Except String String
  apiCalled : Bool
  showAcceptModal : Bool
  toasts : List Toast
deriving DecidableEq, Repr

/-- The success toast of `onSuccess` (ChallengeCard.tsx lines 272-279). -/
def stakesLockedToast : Toast :=
  { title := "✓ Challenge Accepted!"
    description := "You're in! Both stakes are now locked on-chain."
    destructive := false }

/-- One run of `acceptOpenChallengeMutation.mutate()` from a card whose
accept modal is in state `showModal`: `onSuccess` (lines 272-279) toasts
success and sets the modal state to false; `onError` (lines 280-286)
toasts `error.message || "Failed to accept challenge. Someone may have
accepted it first!"` destructively and leaves the modal state unchanged. -/
def acceptOpenMutate (blockchainAccept : Except String String)
    (api : String → Except String String) (showModal : Bool) : AcceptOpenRun :=
  match acceptOpenMutationFn blockchainAccept api with
  | (.ok data, called) =>
    { result := .ok data
      apiCalled := called
      showAcceptModal := false
      toasts := [stakesLockedToast] }
  | (.error msg, called) =>
    { result := .error msg
      apiCalled := called
      showAcceptModal := showModal
      toasts := [{ title := "❌ Error"
                   description :=
                     if msg = "" then
                       "Failed to accept challenge. Someone may have accepted it first!"
                     else msg
                   destructive := true }] }

/-! ## Helper lemmas -/

/-- Stripping the first occurrence from a list it prefixes removes exactly
that prefix. -/
theorem jsStripFirst_append (pat l : List Char) (hne : pat ≠ []) :
    jsStripFirst pat (pat ++ l) = l := by
  match pat, hne with
  | p :: ps, _ =>
    have hpre : (p :: ps).isPrefixOf ((p :: ps) ++ l) = true :=
      List.isPrefixOf_iff_prefix.mpr (List.prefix_append _ _)
    show jsStripFirst (p :: ps) (p :: (ps ++ l)) = l
    rw [jsStripFirst]
    rw [← List.cons_append]
    rw [if_pos hpre, List.drop_left]

/-- Stripping a pattern that does not occur is the identity. -/
theorem jsStripFirst_of_not_contains (pat : List Char) (l : List Char)
    (h : jsContainsSub pat l = false) : jsStripFirst pat l = l := by
  induction l with
  | nil => rfl
  | cons c rest ih =>
    rw [jsContainsSub, Bool.or_eq_false_iff] at h
    rw [jsStripFirst, if_neg (by simp [h.1]), ih h.2]

/-! ## C1: admin auth middleware contract -/

/-- C1: For every request to an admin endpoint, the auth middleware yields
401 when the bearer token is missing, does not start with `admin_`, or
splits into fewer than 3 underscore-delimited segments; for a token of
valid shape it recovers the user id as all segments strictly between the
first and the last rejoined with underscores, yields 403 when the
looked-up user is absent or not flagged admin, and on success attaches the
resolved user to the request context and passes control to the handler. -/
theorem C1_adminAuth_contract (f : String → Option User) (token : String) :
    adminAuth none (pureStore f) = .respond 401 "Unauthorized"
    ∧ (jsStartsWith token "admin_" = false →
        adminAuthToken token (pureStore f) = .respond 401 "Unauthorized")
    ∧ (jsStartsWith token "admin_" = true → (jsSplit token '_').length < 3 →
        adminAuthToken token (pureStore f) = .respond 401 "Invalid token format")
    ∧ (jsStartsWith token "admin_" = true → 3 ≤ (jsSplit token '_').length →
        (f (String.intercalate "_" (((jsSplit token '_').drop 1).dropLast)) = none →
          adminAuthToken token (pureStore f) = .respond 403 "Admin access required")
        ∧ (∀ u, f (String.intercalate "_" (((jsSplit token '_').drop 1).dropLast)) = some u →
            truthyB u.isAdmin = false →
            adminAuthToken token (pureStore f) = .respond 403 "Admin access required")
        ∧ (∀ u, f (String.intercalate "_" (((jsSplit token '_').drop 1).dropLast)) = some u →
            truthyB u.isAdmin = true →
            adminAuthToken token (pureStore f) = .next u)) := by
  have hne : jsStartsWith token "admin_" = true →
      ¬ (token = "" ∨ jsStartsWith token "admin_" = false) := by
    intro hpre h
    rcases h with h1 | h2
    · rw [h1] at hpre; exact absurd hpre (by decide)
    · rw [hpre] at h2; exact Bool.noConfusion h2
  refine ⟨rfl, ?_, ?_, ?_⟩
  · intro hpre
    rw [adminAuthToken, if_pos (Or.inr hpre)]
  · intro hpre hlen
    rw [adminAuthToken, if_neg (hne hpre)]
    simp only [if_pos hlen]
  · intro hpre hlen
    have hnlt : ¬ (jsSplit token '_').length < 3 := not_lt.mpr hlen
    refine ⟨?_, ?_, ?_⟩
    · intro hnone
      rw [adminAuthToken, if_neg (hne hpre)]
      simp only [if_neg hnlt, pureStore, hnone]
    · intro u hu hadm
      rw [adminAuthToken, if_neg (hne hpre)]
      rw [List.drop_one] at hu
      simp [hnlt, pureStore, hu, hadm]
    · intro u hu hadm
      rw [adminAuthToken, if_neg (hne hpre)]
      rw [List.drop_one] at hu
      simp [hnlt, pureStore, hu, hadm]

/-- Witness for C1: the sample store authenticates the admin stored under
`u_1` (whose id contains an underscore) from token `admin_u_1_99`, and a
wrongly-prefixed token is rejected with 401. -/
theorem C1_adminAuth_contract_witness :
    adminAuthToken "admin_u_1_99" (pureStore sampleStoreFn) = .next adminSample
    ∧ adminAuthToken "nope_x_y" (pureStore sampleStoreFn)
        = .respond 401 "Unauthorized" := by
  constructor
  · exact ((C1_adminAuth_contract sampleStoreFn "admin_u_1_99").2.2.2
      (by decide) (by decide)).2.2 adminSample (by decide) (by decide)
  · exact (C1_adminAuth_contract sampleStoreFn "nope_x_y").2.1 (by decide)

/-! ## C10: bare tokens and the Bearer strip -/

/-- C10 (amended): For every request whose Authorization header value is a
bare token containing no occurrence of the substring `Bearer `, the admin
auth middleware authenticates it exactly as if the `Bearer ` prefix had
been present: the strip is a first-occurrence substring replacement, and
all subsequent shape checks and the user lookup depend only on the
resulting token string.  (A header whose user-id segment itself contains
`Bearer ` is the one exception, settled by the counterexample.) -/
theorem C10_bare_token_equiv (getUser : String → Except String (Option User))
    (t : String) (h : jsContainsSub bearerPrefix.toList t.toList = false) :
    adminAuth (some t) getUser = adminAuth (some (bearerPrefix ++ t)) getUser
    ∧ adminAuth (some t) getUser = adminAuthToken t getUser := by
  have h1 : jsReplaceFirst t bearerPrefix = t := by
    unfold jsReplaceFirst
    rw [jsStripFirst_of_not_contains _ _ h]
    rfl
  have h2 : jsReplaceFirst (bearerPrefix ++ t) bearerPrefix = t := by
    unfold jsReplaceFirst
    have hl : (bearerPrefix ++ t).toList = bearerPrefix.toList ++ t.toList :=
      String.data_append ..
    rw [hl, jsStripFirst_append _ _ (by decide)]
    rfl
  constructor
  · show adminAuthToken (jsReplaceFirst t bearerPrefix) getUser
      = adminAuthToken (jsReplaceFirst (bearerPrefix ++ t) bearerPrefix) getUser
    rw [h1, h2]
  · show adminAuthToken (jsReplaceFirst t bearerPrefix) getUser = adminAuthToken t getUser
    rw [h1]

/-- Witness for C10 (amended) at a concrete ordinary token. -/
theorem C10_bare_token_equiv_witness :
    adminAuth (some "admin_u_1_99") (pureStore sampleStoreFn)
      = adminAuth (some (bearerPrefix ++ "admin_u_1_99")) (pureStore sampleStoreFn) :=
  (C10_bare_token_equiv (pureStore sampleStoreFn) "admin_u_1_99" (by decide)).1

/-- A store whose only user sits under the id `xBearer y`, which contains
the substring `Bearer `. -/
def c10StoreFn : String → Option User :=
  fun uid => if uid = "xBearer y" then some adminSample else none

/-- Counterexample to C10 as stated: for the bare header
`admin_xBearer y_7` (user id `xBearer y`), `replace` strips the interior
occurrence of `Bearer `, so the bare and the prefixed form of the same
token resolve different user ids and authenticate differently. -/
theorem C10_cex :
    adminAuth (some "admin_xBearer y_7") (pureStore c10StoreFn)
      ≠ adminAuth (some ("Bearer " ++ "admin_xBearer y_7")) (pureStore c10StoreFn) := by
  decide

/-! ## C6: what the catch-all paths answer -/

/-- C6 (amended): The embedded handlers catch every exception of their
dependencies (the model is total), but the catch-all status is not a
uniform generic 500: the admin auth middleware's catch block answers
401 "Unauthorized", while the wallet-login handler's catch block answers
500 carrying the thrown error's message — whether the provisioning step or
the token-issuance step threw. -/
theorem C6_catch_all (msg w token : String) (email : Option String) (u : SupaUser)
    (gen : String → String → Except String (Option String))
    (getOrCreate : String → Option String → Except String (Option SupaUser)) :
    (jsStartsWith token "admin_" = true → 3 ≤ (jsSplit token '_').length →
      adminAuthToken token (fun _ => Except.error msg) = .respond 401 "Unauthorized")
    ∧ (w ≠ "" →
        walletLoginHandler (some w) email (fun _ _ => Except.error msg) gen
          = ⟨.err 500 msg, true, false⟩)
    ∧ (w ≠ "" → getOrCreate w email = Except.ok (some u) →
        walletLoginHandler (some w) email getOrCreate (fun _ _ => Except.error msg)
          = ⟨.err 500 msg, true, true⟩) := by
  refine ⟨?_, ?_, ?_⟩
  · intro hpre hlen
    have hne : ¬ (token = "" ∨ jsStartsWith token "admin_" = false) := by
      rintro (h1 | h2)
      · rw [h1] at hpre; exact absurd hpre (by decide)
      · rw [hpre] at h2; exact Bool.noConfusion h2
    rw [adminAuthToken, if_neg hne]
    simp [not_lt.mpr hlen]
  · intro hw
    simp [walletLoginHandler, hw]
  · intro hw hg
    simp [walletLoginHandler, hw, hg]

/-- Witness for C6 (amended): a throwing provisioning dependency makes
wallet-login answer 500 with the thrown message. -/
theorem C6_catch_all_witness :
    walletLoginHandler (some "0xW") none (fun _ _ => Except.error "boom")
      (fun _ _ => Except.ok none) = ⟨.err 500 "boom", true, false⟩ :=
  (C6_catch_all "boom" "0xW" "admin_x_1" none ⟨"i", none, none⟩
    (fun _ _ => Except.ok none) (fun _ _ => Except.error "zap")).2.1 (by decide)

/-- Counterexample to C6 as stated: a throwing user-store lookup inside
the admin auth middleware is answered with status 401, not a generic
500. -/
theorem C6_cex :
    adminAuthToken "admin_u_1_99" (fun _ => Except.error "db down")
      = .respond 401 "Unauthorized" ∧ (401 : ℕ) ≠ 500 := by
  exact ⟨by decide, by decide⟩

/-! ## C2: stats financial totals -/

/-- One step of the financial-stats loop. -/
def statsStep (acc : Option ℚ × Option ℚ) (c : ChallengeRow) : Option ℚ × Option ℚ :=
  match c.amount with
  | none => acc
  | some s =>
    if s = "" then acc
    else (jsAdd acc.1 (parseFloat s), jsAdd acc.2 (parseFloat s))

/-- The loop is the fold of its step. -/
theorem statsFinancialTotals_eq_foldl (cs : List ChallengeRow) :
    statsFinancialTotals cs = cs.foldl statsStep (some 0, some 0) := rfl

/-- The two accumulators evolve identically from equal starts. -/
theorem statsFold_diag (cs : List ChallengeRow) :
    ∀ a : Option ℚ, (cs.foldl statsStep (a, a)).1 = (cs.foldl statsStep (a, a)).2 := by
  induction cs with
  | nil => intro a; rfl
  | cons c rest ih =>
    intro a
    show (rest.foldl statsStep (statsStep (a, a) c)).1
      = (rest.foldl statsStep (statsStep (a, a) c)).2
    have hstep : ∃ b, statsStep (a, a) c = (b, b) := by
      unfold statsStep
      rcases c.amount with _ | s
      · exact ⟨a, rfl⟩
      · by_cases hs : s = ""
        · simp [hs]
        · exact ⟨jsAdd a (parseFloat s), by simp [hs]⟩
    rcases hstep with ⟨b, hb⟩
    rw [hb]; exact ih b

/-- Decidable form of "every present, non-empty amount parses". -/
def allAmountsParse (cs : List ChallengeRow) : Bool :=
  cs.all (fun c =>
    match c.amount with
    | some s => (s == "") || (parseFloat s).isSome
    | none => true)

/-- When every present amount parses, the fold accumulates the claimed
sum on both sides. -/
theorem statsFold_sum (cs : List ChallengeRow) (h : allAmountsParse cs = true) :
    ∀ x y : ℚ, cs.foldl statsStep (some x, some y)
      = (some (x + claimedStatsTotal cs), some (y + claimedStatsTotal cs)) := by
  induction cs with
  | nil => intro x y; simp [claimedStatsTotal]
  | cons c rest ih =>
    rw [allAmountsParse, List.all_cons, Bool.and_eq_true] at h
    have h1 := h.1
    have hrest := ih h.2
    intro x y
    show rest.foldl statsStep (statsStep (some x, some y) c)
      = (some (x + claimedStatsTotal (c :: rest)), some (y + claimedStatsTotal (c :: rest)))
    have htot : claimedStatsTotal (c :: rest)
        = (match c.amount with
           | some s => (parseFloat s).getD 0
           | none => 0) + claimedStatsTotal rest := by
      simp [claimedStatsTotal]
    rcases hc : c.amount with _ | s
    · have hstep : statsStep (some x, some y) c = (some x, some y) := by
        simp [statsStep, hc]
      rw [hstep, hrest x y, htot, hc]
      simp
    · by_cases hs : s = ""
      · have hstep : statsStep (some x, some y) c = (some x, some y) := by
          simp [statsStep, hc, hs]
        subst hs
        rw [hstep, hrest x y, htot, hc]
        simp [show parseFloat "" = none by decide]
      · rcases hq : parseFloat s with _ | q
        · exfalso
          rw [hc] at h1
          simp only [hq, Option.isSome_none, Bool.or_eq_true, beq_iff_eq] at h1
          rcases h1 with h1 | h1
          · exact hs h1
          · exact Bool.noConfusion h1
        · have hstep : statsStep (some x, some y) c
              = (some (x + q), some (y + q)) := by
            simp [statsStep, hc, hs, hq, jsAdd]
          rw [hstep, hrest (x + q) (y + q), htot, hc]
          simp only [hq, Option.getD_some, Prod.mk.injEq, Option.some.injEq]
          constructor <;> ring

/-- A challenge row with every optional field absent. -/
def sampleRow : ChallengeRow :=
  { id := 1, title := none, description := none, category := none, status := none,
    amount := none, result := none, evidence := none, dueDate := none,
    createdAt := none, completedAt := none, isPinned := none, challengerId := none,
    challengedId := none, challengerUsername := none, challengedUsername := none,
    adminCreated := none, bonusSide := none, bonusMultiplier := none,
    bonusEndsAt := none, yesStakeTotal := none, noStakeTotal := none,
    paymentTokenAddress := none }

/-- `sampleRow` with a given `amount`. -/
def rowWith (a : Option String) : ChallengeRow := { sampleRow with amount := a }

/-- C2 (amended): The stats endpoint's totalVolume and totalChallengeStaked
are always equal to each other, and whenever every present non-empty
`amount` parses they both equal the sum of the parsed amounts, an absent
or empty amount contributing 0 (so for amounts "10", absent, "5.5" both
totals are 15.5); a present unparsable amount, however, turns both totals
into NaN rather than contributing 0. -/
theorem C2_stats_totals (cs : List ChallengeRow) :
    (statsFinancialTotals cs).1 = (statsFinancialTotals cs).2
    ∧ (allAmountsParse cs = true →
        statsFinancialTotals cs
          = (some (claimedStatsTotal cs), some (claimedStatsTotal cs))) := by
  constructor
  · rw [statsFinancialTotals_eq_foldl]
    exact statsFold_diag cs (some 0)
  · intro h
    rw [statsFinancialTotals_eq_foldl, statsFold_sum cs h 0 0]
    simp

/-- Evaluation: `parseFloat "10" = 10`. -/
theorem parseFloat_ten : parseFloat "10" = some 10 := by
  rw [show parseFloat "10"
      = some ((1 : ℚ) * ((digitsToNat ['1', '0'] : ℚ)
        + (digitsToNat [] : ℚ) / (10 ^ ([] : List Char).length : ℚ))) from rfl]
  norm_num [show digitsToNat ['1', '0'] = 10 from by decide,
    show digitsToNat [] = 0 from by decide]

/-- Evaluation: `parseFloat "5.5" = 11/2`. -/
theorem parseFloat_five_point_five : parseFloat "5.5" = some ((11 : ℚ) / 2) := by
  rw [show parseFloat "5.5"
      = some ((1 : ℚ) * ((digitsToNat ['5'] : ℚ)
        + (digitsToNat ['5'] : ℚ) / (10 ^ (['5'] : List Char).length : ℚ))) from rfl]
  norm_num [show digitsToNat ['5'] = 5 from by decide]

/-- Evaluation: `parseFloat "abc"` is NaN. -/
theorem parseFloat_abc : parseFloat "abc" = none := by decide

/-- Witness for C2 (amended): amounts "10", absent, "5.5" give
totalVolume = totalChallengeStaked = 15.5. -/
theorem C2_stats_totals_witness :
    statsFinancialTotals [rowWith (some "10"), rowWith none, rowWith (some "5.5")]
      = (some ((31 : ℚ) / 2), some ((31 : ℚ) / 2)) := by
  have h := (C2_stats_totals
    [rowWith (some "10"), rowWith none, rowWith (some "5.5")]).2 (by decide)
  have ht : claimedStatsTotal [rowWith (some "10"), rowWith none, rowWith (some "5.5")]
      = (31 : ℚ) / 2 := by
    simp [claimedStatsTotal, rowWith, sampleRow, parseFloat_ten, parseFloat_five_point_five]
    norm_num
  rw [ht] at h
  exact h

/-- Counterexample to C2 as stated: a present unparsable amount ("abc")
does not contribute 0 — it poisons both running totals to NaN (`none`),
while the claim prescribes the sum 10. -/
theorem C2_cex :
    statsFinancialTotals [rowWith (some "10"), rowWith (some "abc")] = (none, none)
    ∧ claimedStatsTotal [rowWith (some "10"), rowWith (some "abc")] = 10
    ∧ statsFinancialTotals [rowWith (some "10"), rowWith (some "abc")]
        ≠ (some (10 : ℚ), some (10 : ℚ)) := by
  refine ⟨by decide, ?_, by decide⟩
  simp [claimedStatsTotal, rowWith, sampleRow, parseFloat_ten, parseFloat_abc]

/-! ## C4: wallet-login -/

/-- C4: On a body without walletAddress the handler returns 400 and
invokes neither dependency; with a (non-empty) walletAddress it first
resolves-or-creates a user (500 if none is returned, without issuing a
token), then issues a token bound to that user id and wallet address (500
if none is returned), and on full success returns
`{success:true, token, user:{id, email, wallet}}` built from the
provisioned record. -/
theorem C4_wallet_login (w : String) (email : Option String)
    (getOrCreate : String → Option String → Except String (Option SupaUser))
    (gen : String → String → Except String (Option String))
    (u : SupaUser) (tok : String) :
    walletLoginHandler none email getOrCreate gen
      = ⟨.err 400 "Missing walletAddress", false, false⟩
    ∧ (w ≠ "" → getOrCreate w email = .ok none →
        walletLoginHandler (some w) email getOrCreate gen
          = ⟨.err 500 "Failed to create user", true, false⟩)
    ∧ (w ≠ "" → getOrCreate w email = .ok (some u) → gen u.id w = .ok none →
        walletLoginHandler (some w) email getOrCreate gen
          = ⟨.err 500 "Failed to generate token", true, true⟩)
    ∧ (w ≠ "" → getOrCreate w email = .ok (some u) → gen u.id w = .ok (some tok) →
        tok ≠ "" →
        walletLoginHandler (some w) email getOrCreate gen
          = ⟨.ok tok u.id u.email u.wallet, true, true⟩) := by
  refine ⟨rfl, ?_, ?_, ?_⟩
  · intro hw hg
    simp [walletLoginHandler, hw, hg]
  · intro hw hg ht
    simp [walletLoginHandler, hw, hg, ht]
  · intro hw hg ht htok
    simp [walletLoginHandler, hw, hg, ht, htok]

/-- A provisioning dependency that always returns the same record. -/
def provisionOk : String → Option String → Except String (Option SupaUser) :=
  fun _ _ => .ok (some ⟨"id1", some "e@x.io", some "0xW"⟩)

/-- A token-issuance dependency that always returns the same token. -/
def genTokenOk : String → String → Except String (Option String) :=
  fun _ _ => .ok (some "tok123")

/-- Witness for C4 at concrete dependencies: a missing walletAddress gives
400 with no dependency calls, and a full success builds the response from
the provisioned record. -/
theorem C4_wallet_login_witness :
    walletLoginHandler none none provisionOk genTokenOk
      = ⟨.err 400 "Missing walletAddress", false, false⟩
    ∧ walletLoginHandler (some "0xW") none provisionOk genTokenOk
      = ⟨.ok "tok123" "id1" (some "e@x.io") (some "0xW"), true, true⟩ := by
  constructor
  · exact (C4_wallet_login "0xW" none provisionOk genTokenOk
      ⟨"id1", some "e@x.io", some "0xW"⟩ "tok123").1
  · exact (C4_wallet_login "0xW" none provisionOk genTokenOk
      ⟨"id1", some "e@x.io", some "0xW"⟩ "tok123").2.2.2
      (by decide) rfl rfl (by decide)

/-! ## C8: pagination of the list endpoints -/

/-- For a natural offset and limit, the JavaScript slice
`[offset, offset + limit)` is drop-then-take. -/
theorem jsSlice_natCast {α : Type} (l : List α) (off lim : ℕ) :
    jsSlice l (off : ℤ) ((off : ℤ) + (lim : ℤ)) = (l.drop off).take lim := by
  simp only [jsSlice]
  rw [if_neg (by omega : ¬ ((off : ℤ) < 0)),
    if_neg (by omega : ¬ ((off : ℤ) + (lim : ℤ) < 0))]
  rcases le_or_lt (off : ℤ) (l.length : ℤ) with hle | hlt
  · rw [min_eq_left hle]
    rcases le_or_lt ((off : ℤ) + (lim : ℤ)) (l.length : ℤ) with hle2 | hlt2
    · rw [min_eq_left hle2, add_sub_cancel_left, Int.toNat_natCast, Int.toNat_natCast]
    · rw [min_eq_right hlt2.le, Int.toNat_natCast]
      have hlen2 : ((l.length : ℤ) - (off : ℤ)).toNat = l.length - off := by omega
      rw [hlen2]
      have h3 : (l.drop off).take (l.length - off) = l.drop off :=
        List.take_of_length_le (by rw [List.length_drop])
      have h4 : (l.drop off).take lim = l.drop off :=
        List.take_of_length_le (by rw [List.length_drop]; omega)
      rw [h3, h4]
  · rw [min_eq_right hlt.le]
    rw [min_eq_right (by omega : (l.length : ℤ) ≤ (off : ℤ) + (lim : ℤ)), sub_self]
    have h6 : l.drop off = [] := List.drop_eq_nil_of_le (by omega)
    rw [Int.toNat_zero, List.take_zero, h6, List.take_nil]

/-- C8 (amended): For the list-users and list-challenges endpoints, limit
defaults to 100 and offset to 0 when the query parameter is absent, does
not parse as an integer, or parses to 0 (zero is falsy, so a requested
limit of 0 also falls back to 100); for the resulting non-negative
effective values the response is exactly the slice [offset, offset+limit)
of the full collection in its original order, mapped to the admin view. -/
theorem C8_pagination (users : List User) (rows : List ChallengeRow) (nowIso : String)
    (limitQ offsetQ : Option String) (lim off : ℕ) :
    effectiveLimit none = 100 ∧ effectiveLimit (some "abc") = 100
    ∧ effectiveLimit (some "0") = 100
    ∧ effectiveOffset none = 0 ∧ effectiveOffset (some "abc") = 0
    ∧ (effectiveLimit limitQ = (lim : ℤ) → effectiveOffset offsetQ = (off : ℤ) →
        getUsersHandler limitQ offsetQ users
          = ((users.drop off).take lim).map toAdminUserView
        ∧ getChallengesHandler nowIso limitQ offsetQ rows
          = ((rows.drop off).take lim).map (toAdminChallengeView nowIso)) := by
  refine ⟨by decide, by decide, by decide, by decide, by decide, ?_⟩
  intro hL hO
  constructor
  · show (jsSlice users (effectiveOffset offsetQ)
        (effectiveOffset offsetQ + effectiveLimit limitQ)).map toAdminUserView = _
    rw [hL, hO, jsSlice_natCast]
  · show (jsSlice rows (effectiveOffset offsetQ)
        (effectiveOffset offsetQ + effectiveLimit limitQ)).map (toAdminChallengeView nowIso) = _
    rw [hL, hO, jsSlice_natCast]

/-- A user record with only an id. -/
def mkUser (i : String) : User :=
  { id := i, username := none, firstName := none, lastName := none, email := none,
    level := none, points := none, balance := none, createdAt := none,
    lastLogin := none, status := none, isActive := none, isAdmin := none }

/-- A 5-element ordered user collection. -/
def fiveUsers : List User :=
  [mkUser "p0", mkUser "p1", mkUser "p2", mkUser "p3", mkUser "p4"]

/-- Witness for C8 (amended): limit=2, offset=1 over the 5-item collection
returns the items at 0-indexed positions 1 and 2, in order. -/
theorem C8_pagination_witness :
    getUsersHandler (some "2") (some "1") fiveUsers
      = [toAdminUserView (mkUser "p1"), toAdminUserView (mkUser "p2")] := by
  have h := ((C8_pagination fiveUsers [] "" (some "2") (some "1") 2 1).2.2.2.2.2
    (by decide) (by decide)).1
  rw [h]
  decide

/-- Counterexample to C8 as stated: `limit=0` parses as the integer 0, yet
the response is not the empty slice [offset, offset+0) — the falsy
fallback makes it the default-100 slice, here all 5 items. -/
theorem C8_cex :
    (getUsersHandler (some "0") none fiveUsers).length = 5
    ∧ ((fiveUsers.drop 0).take 0).length = 0 := by
  exact ⟨by decide, by decide⟩

/-! ## C3: displayed volume -/

/-- `x || 0` on a present number is the number itself. -/
theorem jsOrQ_some_zero (v : ℚ) : jsOrQ (some v) 0 = v := by
  by_cases h : v = 0 <;> simp [jsOrQ, h]

/-- C3: For a peer-to-peer card with a raw on-chain stake amount, the
displayed volume is `(stakeAmountWei / 10^decimals) × 2` (BigInt, i.e.
truncating, division) with decimals 18 for the all-zero sentinel address
and 6 otherwise; without a raw stake amount it is `parsed(amount) × 2`;
for an admin-created challenge it is `yesStakeTotal + noStakeTotal`,
independent of `amount`. -/
theorem C3_display_volume (ch : ClientChallenge) (y n : ℚ) (wei : ℤ) (q : ℚ) :
    (truthyB ch.adminCreated = true →
      (∀ a', displayVolume { ch with amount := a' } = displayVolume ch)
      ∧ (ch.yesStakeTotal = some y → ch.noStakeTotal = some n →
          displayVolume ch = y + n))
    ∧ (truthyB ch.adminCreated = false → ch.stakeAmountWei = some wei →
        (ch.paymentTokenAddress = some zeroAddress →
          displayVolume ch = ((Int.tdiv wei (10 ^ 18) * 2 : ℤ) : ℚ))
        ∧ (ch.paymentTokenAddress ≠ some zeroAddress →
          displayVolume ch = ((Int.tdiv wei (10 ^ 6) * 2 : ℤ) : ℚ)))
    ∧ (truthyB ch.adminCreated = false → ch.stakeAmountWei = none →
        parseFloat ch.amount = some q → displayVolume ch = q * 2) := by
  refine ⟨?_, ?_, ?_⟩
  · intro hAdm
    constructor
    · intro a'
      simp [displayVolume, hAdm]
    · intro hy hn
      simp [displayVolume, hAdm, hy, hn, jsOrQ_some_zero]
  · intro hAdm hwei
    constructor
    · intro haddr
      simp [displayVolume, hAdm, hwei, haddr]
    · intro haddr
      simp [displayVolume, hAdm, hwei, haddr]
  · intro hAdm hwei hq
    simp [displayVolume, hAdm, hwei, hq, jsOrQ_some_zero]

/-- A basic open peer-to-peer challenge prop. -/
def sampleCh : ClientChallenge :=
  { id := 7, challenger := some "alice", challenged := none,
    challengerSide := some "YES", title := "Match", category := some "sports",
    amount := "50", status := "open", dueDate := none, createdAt := some 0,
    adminCreated := none, bonusSide := none, bonusMultiplier := none,
    bonusEndsAt := none, bonusAmount := none, yesStakeTotal := none,
    noStakeTotal := none, paymentTokenAddress := none, earlyBirdSlots := none,
    streakBonusEnabled := none, acceptorStaked := none, creatorStaked := none,
    stakeAmountWei := none }

/-- `sampleCh` holding a raw on-chain stake in a non-native token. -/
def weiSampleCh : ClientChallenge :=
  { sampleCh with stakeAmountWei := some 2000000, paymentTokenAddress := some "0xToken" }

/-- An admin-created challenge with stake totals 120 and 80. -/
def adminSampleCh : ClientChallenge :=
  { sampleCh with adminCreated := some true, yesStakeTotal := some 120, noStakeTotal := some 80 }

/-- Witness for C3: stakeAmountWei "2000000" with a non-native token gives
volume (2000000/10^6)×2 = 4, and an admin-created challenge with stake
totals 120 and 80 gives volume 200. -/
theorem C3_display_volume_witness :
    displayVolume weiSampleCh = 4 ∧ displayVolume adminSampleCh = 200 := by
  constructor
  · have h := ((C3_display_volume weiSampleCh 0 0 2000000 0).2.1
      rfl rfl).2 (by decide)
    rw [h, show Int.tdiv 2000000 (10 ^ 6) = 2 from by decide]
    norm_num
  · have h := ((C3_display_volume adminSampleCh 120 80 0 0).1 rfl).2 rfl rfl
    rw [h]
    norm_num

/-! ## C5: bonus derivation -/

/-- The weak-side bonus entry: label is the formatted currency amount when
`bonusAmount` is present (non-zero), else `<bonusMultiplier>x`. -/
def weakSideEntry (sym : Option String → String) (fmt : ℚ → String)
    (ch : ClientChallenge) : BonusEntry :=
  { type := "weak_side"
    label :=
      match ch.bonusAmount with
      | some a => if a ≠ 0 then sym ch.paymentTokenAddress ++ fmt a
                  else (ch.bonusMultiplier.getD "undefined") ++ "x"
      | none => (ch.bonusMultiplier.getD "undefined") ++ "x"
    icon := "Zap"
    side := ch.bonusSide
    description := "Bonus for " ++ (ch.bonusSide.getD "undefined") ++ " side" }

/-- The early-bird bonus entry, labelled "Early". -/
def earlyBirdEntry (ch : ClientChallenge) : BonusEntry :=
  { type := "early_bird", label := "Early", icon := "Zap", side := none
    description := "Bonus for first " ++ toString (ch.earlyBirdSlots.getD 0) ++ " users" }

/-- The streak bonus entry, labelled "Streak". -/
def streakEntry : BonusEntry :=
  { type := "streak", label := "Streak", icon := "Trophy", side := none
    description := "Win streak bonus active" }

/-- C5: The derived bonus list contains exactly the entries whose
conditions hold, in the fixed order [weak_side, early_bird, streak]:
weak_side iff `bonusEndsAt` is strictly in the future and `bonusSide` is
set, early_bird iff `earlyBirdSlots > 0` with label "Early", streak iff
`streakBonusEnabled` with label "Streak"; when all three conditions hold
the list has exactly these 3 entries in that order. -/
theorem C5_bonus_list (sym : Option String → String) (fmt : ℚ → String)
    (ch : ClientChallenge) (now : ℤ) :
    getBonusBadge sym fmt ch now =
      (if isBonusActive ch now && truthyS ch.bonusSide then [weakSideEntry sym fmt ch] else [])
      ++ (if 0 < ch.earlyBirdSlots.getD 0 then [earlyBirdEntry ch] else [])
      ++ (if truthyB ch.streakBonusEnabled then [streakEntry] else [])
    ∧ (isBonusActive ch now = true → truthyS ch.bonusSide = true →
        0 < ch.earlyBirdSlots.getD 0 → truthyB ch.streakBonusEnabled = true →
        (getBonusBadge sym fmt ch now).map (fun b => b.type)
          = ["weak_side", "early_bird", "streak"]) := by
  have hearly : (match ch.earlyBirdSlots with
      | some k => decide (k ≠ 0) && decide (0 < k)
      | none => false) = decide (0 < ch.earlyBirdSlots.getD 0) := by
    cases hk : ch.earlyBirdSlots with
    | none => simp
    | some k =>
      by_cases h : 0 < k
      · have hne : k ≠ 0 := by omega
        simp [h, hne]
      · simp [h]
  have main : getBonusBadge sym fmt ch now =
      (if isBonusActive ch now && truthyS ch.bonusSide then [weakSideEntry sym fmt ch] else [])
      ++ (if 0 < ch.earlyBirdSlots.getD 0 then [earlyBirdEntry ch] else [])
      ++ (if truthyB ch.streakBonusEnabled then [streakEntry] else []) := by
    rw [getBonusBadge, hearly]
    cases hw : (isBonusActive ch now && truthyS ch.bonusSide) <;>
      cases hs : truthyB ch.streakBonusEnabled <;>
        by_cases h0 : 0 < ch.earlyBirdSlots.getD 0 <;>
          simp [hw, hs, h0, weakSideEntry, earlyBirdEntry, streakEntry]
  refine ⟨main, ?_⟩
  intro h1 h2 h3 h4
  rw [main]
  simp [h1, h2, h3, h4, weakSideEntry, earlyBirdEntry, streakEntry]

/-- `sampleCh` with an active weak-side bonus, 5 early-bird slots and the
streak bonus enabled. -/
def bonusSampleCh : ClientChallenge :=
  { sampleCh with bonusEndsAt := some 1000, bonusSide := some "NO", bonusAmount := some 500, earlyBirdSlots := some 5, streakBonusEnabled := some true }

/-- Witness for C5: with all three bonus conditions holding, exactly the
3 entries [weak_side, early_bird, streak] are derived, in order. -/
theorem C5_bonus_list_witness :
    (getBonusBadge (fun _ => "$") (fun _ => "500") bonusSampleCh 0).map (fun b => b.type)
      = ["weak_side", "early_bird", "streak"] :=
  (C5_bonus_list (fun _ => "$") (fun _ => "500") bonusSampleCh 0).2
    (by decide) (by decide) (by decide) (by decide)

/-! ## C7: peer-to-peer status badges and the render guard -/

/-- C7 (amended): For a peer-to-peer challenge the escrow-progress flags
layered on `status` select the "Open" (status open, acceptor not staked),
"Waiting for Creator" (status pending, acceptor staked, creator not
staked) and "Active" (status active) badges in `getStatusBadge`,
independently of the generic status switch — but the card's render guard
hides the status badge whenever `status` is "open" or "pending", so of
the three only the "Active" badge is ever rendered. -/
theorem C7_escrow_badges (ch : ClientChallenge) (now : ℤ) :
    (truthyB ch.adminCreated = false → ch.status = "open" →
      truthyB ch.acceptorStaked = false →
      getStatusBadge ch now ch.status = some "Open"
      ∧ renderedStatusBadge ch now = none)
    ∧ (truthyB ch.adminCreated = false → ch.status = "pending" →
      truthyB ch.acceptorStaked = true → truthyB ch.creatorStaked = false →
      getStatusBadge ch now ch.status = some "Waiting for Creator"
      ∧ renderedStatusBadge ch now = none)
    ∧ (truthyB ch.adminCreated = false → ch.status = "active" →
      getStatusBadge ch now ch.status = some "Active"
      ∧ renderedStatusBadge ch now = some "Active") := by
  refine ⟨?_, ?_, ?_⟩
  · intro hAdm hSt hAcc
    constructor
    · simp [getStatusBadge, hSt, hAdm, hAcc]
    · simp [renderedStatusBadge, hSt]
  · intro hAdm hSt hAcc hCr
    constructor
    · simp [getStatusBadge, hSt, hAdm, hAcc, hCr]
    · simp [renderedStatusBadge, hSt]
  · intro hAdm hSt
    constructor
    · simp [getStatusBadge, hSt, hAdm]
    · simp [renderedStatusBadge, getStatusBadge, hSt, hAdm]

/-- Witness for C7 (amended): an active peer-to-peer challenge renders the
"Active" badge. -/
theorem C7_escrow_badges_witness :
    renderedStatusBadge { sampleCh with status := "active" } 0 = some "Active" :=
  ((C7_escrow_badges { sampleCh with status := "active" } 0).2.2 rfl rfl).2

/-- Counterexample to C7 as stated: for an open peer-to-peer challenge
whose acceptor has not staked, `getStatusBadge` selects "Open" but the
rendered card shows no status badge at all — the render guard suppresses
it because `status` is "open" (and likewise "pending" suppresses
"Waiting for Creator"). -/
theorem C7_cex :
    getStatusBadge sampleCh 0 sampleCh.status = some "Open"
    ∧ renderedStatusBadge sampleCh 0 = none := by
  exact ⟨by decide, by decide⟩

/-! ## C9: accept-open two-phase flow -/

/-- C9: In the two-phase accept flow, a failure of the on-chain signing
step terminates the attempt with a descriptive "Blockchain signing
failed" error before the server call is made; whenever the signature
succeeds but the accept-open server call fails, the error path toasts the
server's message with the contention message ("Someone may have accepted
it first!") as fallback, does not mark stakes as locked, and leaves the
confirmation modal state unchanged — the modal-visible state is set to
false only on full success. -/
theorem C9_accept_open (api : String → Except String String)
    (msg tx emsg d : String) (modal : Bool) :
    ((acceptOpenMutate (.error msg) api modal).apiCalled = false
      ∧ (acceptOpenMutate (.error msg) api modal).result
          = .error ("Blockchain signing failed: "
              ++ (if msg = "" then "Unknown error" else msg))
      ∧ (acceptOpenMutate (.error msg) api modal).showAcceptModal = modal)
    ∧ (api tx = .error emsg →
        (acceptOpenMutate (.ok tx) api modal).apiCalled = true
        ∧ (acceptOpenMutate (.ok tx) api modal).showAcceptModal = modal
        ∧ (acceptOpenMutate (.ok tx) api modal).toasts
            = [{ title := "❌ Error"
                 description :=
                   if emsg = "" then
                     "Failed to accept challenge. Someone may have accepted it first!"
                   else emsg
                 destructive := true }]
        ∧ stakesLockedToast ∉ (acceptOpenMutate (.ok tx) api modal).toasts)
    ∧ (api tx = .ok d →
        (acceptOpenMutate (.ok tx) api modal).showAcceptModal = false
        ∧ (acceptOpenMutate (.ok tx) api modal).toasts = [stakesLockedToast]) := by
  refine ⟨⟨rfl, rfl, rfl⟩, ?_, ?_⟩
  · intro herr
    have hrun : acceptOpenMutate (.ok tx) api modal
        = { result := .error emsg
            apiCalled := true
            showAcceptModal := modal
            toasts := [{ title := "❌ Error"
                         description :=
                           if emsg = "" then
                             "Failed to accept challenge. Someone may have accepted it first!"
                           else emsg
                         destructive := true }] } := by
      simp [acceptOpenMutate, acceptOpenMutationFn, herr]
    refine ⟨by rw [hrun], by rw [hrun], by rw [hrun], ?_⟩
    rw [hrun]
    simp only [List.mem_singleton]
    intro hmem
    have htitle := congrArg Toast.title hmem
    simp [stakesLockedToast] at htitle
  · intro hok
    have hrun : acceptOpenMutate (.ok tx) api modal
        = { result := .ok d, apiCalled := true, showAcceptModal := false
            toasts := [stakesLockedToast] } := by
      simp [acceptOpenMutate, acceptOpenMutationFn, hok]
    exact ⟨by rw [hrun], by rw [hrun]⟩

/-- Witness for C9: a chain rejection stops before the server call; a
post-signature server failure keeps the modal open and never emits the
stakes-locked toast. -/
theorem C9_accept_open_witness :
    (acceptOpenMutate (.error "rejected") (fun _ => .error "taken") true).apiCalled = false
    ∧ (acceptOpenMutate (.ok "0xh") (fun _ => .error "taken") true).showAcceptModal = true
    ∧ stakesLockedToast ∉ (acceptOpenMutate (.ok "0xh") (fun _ => .error "taken") true).toasts := by
  have h := C9_accept_open (fun _ => Except.error "taken") "rejected" "0xh" "taken" "unused" true
  exact ⟨h.1.1, (h.2.1 rfl).2.1, (h.2.1 rfl).2.2.2⟩
